import Mathlib

/-!
Shallow embedding of the vhum v3 behavioral-analysis engine
(`src/v3/vhum.js`) and of the relevant part of the legacy v2
`HumanVerifier` (`src/unnamed/part_000`), with theorems settling the
specification claims about them.

Modelling conventions:
* JS numbers are modelled as real numbers (`ℝ`); machine timestamps and
  coordinates are finite reals.
* A JS object field that is absent on some code path (so that reading it
  yields `undefined`), or a field whose value can be the non-finite result
  of a division by zero (`NaN` / `±Infinity`), is modelled as `Option ℝ`
  with `none` for the non-numeric case.  JS arithmetic on such a value
  (`undefined - 0.6`, `Math.abs NaN`) propagates the non-numeric value,
  which is modelled by `jsub` / `jabs`; the JS coercion `x || 0` (which
  sends `NaN`/`undefined` to `0`) is modelled by `orZero`.
* `x || y` on a plain JS number is the identity except at `0`; `jsOr`
  models it exactly.
* JS `%` on integers truncates toward zero (sign of the dividend), which
  is `Int.tmod`; `Math.round` rounds half toward `+∞`, which is Mathlib's
  `round`.
-/

/-- JS `a || b` for finite numbers: `b` exactly when `a` is falsy (`0`). -/
noncomputable def jsOr (a b : ℝ) : ℝ := if a = 0 then b else a

/-- JS `x || 0` applied to a possibly non-numeric value (`undefined`/`NaN`). -/
def orZero : Option ℝ → ℝ
  | none => 0
  | some x => x

/-- JS subtraction where the left operand may be `undefined`/`NaN`. -/
def jsub : Option ℝ → ℝ → Option ℝ
  | none, _ => none
  | some a, b => some (a - b)

/-- JS `Math.abs` on a possibly non-numeric value. -/
def jabs : Option ℝ → Option ℝ
  | none => none
  | some a => some |a|

/-- JS division `a / b`: `none` models the non-finite IEEE result
(`NaN` or `±Infinity`) produced when the denominator is `0`. -/
noncomputable def jdiv (a b : ℝ) : Option ℝ := if b = 0 then none else some (a / b)

/-- The list of consecutive pairs of a list: the loop `for i in 1..n-1`
visiting `(l[i-1], l[i])`. -/
def consPairs {α : Type} (l : List α) : List (α × α) := l.zip l.tail

/-- JS `Math.max(...l)` for a non-empty list (all call sites in the source
pass non-empty lists of non-negative numbers). -/
def listMax : List ℝ → ℝ
  | [] => 0
  | h :: t => t.foldl max h

/-- JS `Math.min(...l)` for a non-empty list. -/
def listMin : List ℝ → ℝ
  | [] => 0
  | h :: t => t.foldl min h

/-- Mean of a list, `l.reduce((a,b)=>a+b)/l.length`. -/
noncomputable def meanL (l : List ℝ) : ℝ := l.sum / (l.length : ℝ)

/-- Population variance of a list, `Σ (b - mean)^2 / l.length`. -/
noncomputable def varL (l : List ℝ) : ℝ :=
  (l.map fun b => (b - meanL l) ^ 2).sum / (l.length : ℝ)

/-- JS `Math.hypot x y`. -/
noncomputable def Math.hypot (x y : ℝ) : ℝ := Real.sqrt (x ^ 2 + y ^ 2)

/-- JS `Math.atan2 y x`: the principal argument of `x + y*i` in `(-π, π]`. -/
noncomputable def Math.atan2 (y x : ℝ) : ℝ := Complex.arg ⟨x, y⟩

/-- One captured sample `{x, y, t}` of the Point Stream. -/
structure Sample where
  x : ℝ
  y : ℝ
  t : ℝ

/-- The modality hint recorded from the event source
(`this.lastInputSource`, a string `'mouse' | 'touch'` or `null`). -/
inductive InputSource
  | mouse
  | touch
  deriving DecidableEq

/-- `InputTypeDetector.TYPES`. -/
inductive InputType
  | mouse
  | touch
  | unknown
  deriving DecidableEq

/-- Result of `InputTypeDetector._analyzeJitterPattern`. -/
structure JitterPattern where
  highVariance : ℝ
  precisionPattern : ℝ

/-- `InputTypeDetector._analyzeJitterPattern`: inter-sample time deltas,
each floored to `0.1`, scored by their coefficient of variation. -/
noncomputable def InputTypeDetector.patternDts (points : List Sample) : List ℝ :=
  (consPairs points).map fun p => max 0.1 (p.2.t - p.1.t)

/-- `InputTypeDetector._analyzeJitterPattern`. -/
noncomputable def InputTypeDetector.analyzeJitterPattern (points : List Sample) :
    JitterPattern :=
  let dts := InputTypeDetector.patternDts points
  let dtVariance := varL dts
  let dtStdDev := Real.sqrt dtVariance
  let dtMean := meanL dts
  let dtCV := dtStdDev / dtMean
  ⟨min 1 (dtCV / 0.15), max 0 (1 - dtCV / 0.08)⟩

/-- Result of `InputTypeDetector._analyzeDwellCharacteristics`. -/
structure DwellChar where
  largeContactArea : ℝ
  pointContact : ℝ

/-- `InputTypeDetector._analyzeDwellCharacteristics`. -/
noncomputable def InputTypeDetector.analyzeDwellCharacteristics
    (points : List Sample) : DwellChar :=
  if points.length < 5 then ⟨0.5, 0.5⟩
  else
    let centroid : ℝ × ℝ :=
      ((points.map Sample.x).sum / (points.length : ℝ),
       (points.map Sample.y).sum / (points.length : ℝ))
    let distances := points.map fun p =>
      Math.hypot (p.x - centroid.1) (p.y - centroid.2)
    let maxDist := listMax distances
    if maxDist > 15 then ⟨0.8, 0.2⟩ else ⟨0.2, 0.8⟩

/-- Result of `InputTypeDetector._analyzeSpeedProfile`. -/
structure SpeedProfile where
  smoothProfile : ℝ
  sharpProfile : ℝ
  lowPrecision : ℝ
  highPrecision : ℝ

/-- `InputTypeDetector._analyzeSpeedProfile`: instantaneous speeds with
the time delta floored to 8 ms, scored by their coefficient of variation. -/
noncomputable def InputTypeDetector.analyzeSpeedProfile
    (points : List Sample) : SpeedProfile :=
  if points.length < 3 then ⟨0.5, 0.5, 0.5, 0.5⟩
  else
    let speeds := (consPairs points).map fun p =>
      Real.sqrt ((p.2.x - p.1.x) ^ 2 + (p.2.y - p.1.y) ^ 2)
        / (max 8 (p.2.t - p.1.t) / 1000)
    let mean := speeds.sum / (speeds.length : ℝ)
    let speedVar := (speeds.map fun b => (b - mean) ^ 2).sum / (speeds.length : ℝ)
    let speedStd := Real.sqrt (jsOr speedVar 0)
    let speedCV := if |mean| > 1e-6 then speedStd / mean else 0
    ⟨min 1 (speedCV / 0.5), max 0 (1 - speedCV / 0.3),
     min 1 (speedCV / 0.6), max 0 (1 - speedCV / 0.4)⟩

/-- `InputTypeDetector.detect`: an explicit source hint wins; fewer than 10
samples give `UNKNOWN`; otherwise the weighted touch/mouse scores decide. -/
noncomputable def InputTypeDetector.detect (points : List Sample)
    (inputSource : Option InputSource) : InputType :=
  if inputSource = some .touch then .touch
  else if inputSource = some .mouse then .mouse
  else if points.length < 10 then .unknown
  else
    let jitterAnalysis := InputTypeDetector.analyzeJitterPattern points
    let dwellAnalysis := InputTypeDetector.analyzeDwellCharacteristics points
    let speedProfile := InputTypeDetector.analyzeSpeedProfile points
    let touchScore := jitterAnalysis.highVariance * 0.3 +
      dwellAnalysis.largeContactArea * 0.3 +
      speedProfile.smoothProfile * 0.2 + speedProfile.lowPrecision * 0.2
    let mouseScore := jitterAnalysis.precisionPattern * 0.3 +
      dwellAnalysis.pointContact * 0.3 +
      speedProfile.sharpProfile * 0.2 + speedProfile.highPrecision * 0.2
    if touchScore > mouseScore then .touch else .mouse

/-- The per-feature weight table of `AdaptivePerceptron` (field order is the
JS object key order). -/
structure PerceptronWeights where
  fitts : ℝ
  temporal : ℝ
  decision : ℝ
  jitter : ℝ
  dwell : ℝ
  speed : ℝ
  accel : ℝ
  curvature : ℝ
  entropy : ℝ
  pauses : ℝ

/-- The fixed mouse preset of `AdaptivePerceptron._initializeWeights`. -/
noncomputable def mouseWeights : PerceptronWeights :=
  ⟨2.2, 2.1, 2.3, 0.9, 1.4, 0.5, 0.6, 0.4, 0.3, 1.7⟩

/-- The fixed touch preset of `AdaptivePerceptron._initializeWeights`. -/
noncomputable def touchWeights : PerceptronWeights :=
  ⟨1.6, 1.3, 1.7, 0.35, 0.75, 0.35, 0.4, 0.25, 0.2, 1.0⟩

/-- The state of one `AdaptivePerceptron` object: its weight table and bias
(set once by the constructor) and the mutable `lastZ` / `lastP` diagnostics
written by `predict` (absent before the first prediction). -/
structure AdaptivePerceptron where
  weights : PerceptronWeights
  bias : ℝ
  lastZ : Option ℝ
  lastP : Option ℝ

/-- `new AdaptivePerceptron(inputType)`: `_initializeWeights` selects the
preset by `inputType === TOUCH`. -/
noncomputable def AdaptivePerceptron.init (inputType : InputType) :
    AdaptivePerceptron :=
  if inputType = .touch then ⟨touchWeights, -2.6, none, none⟩
  else ⟨mouseWeights, -3.2, none, none⟩

/-- The feature vector `inputs` built by `Vhum.finalize` (field order is the
JS object key order).  Only the `entropy` entry can be non-numeric: on short
streams `analyzeEntropy`'s default omits `normalizedEntropy`, so
`Math.abs(undefined - 0.6)` is `NaN`. -/
structure FeatureVec where
  fitts : ℝ
  temporal : ℝ
  decision : ℝ
  jitter : ℝ
  dwell : ℝ
  speed : ℝ
  accel : ℝ
  curvature : ℝ
  entropy : Option ℝ
  pauses : ℝ

/-- The accumulated sum `z = bias + Σ (inputs[key] || 0) * (weights[key] || 0)`
of `AdaptivePerceptron.predict`, in the key order of `inputs`.  `x || 0` is
the identity on every numeric entry (and on every weight, since all ten keys
are present with non-zero weights); it sends the possibly-`NaN` entropy entry
to `0`, modelled by `orZero`. -/
noncomputable def AdaptivePerceptron.zValue (w : PerceptronWeights) (bias : ℝ)
    (inputs : FeatureVec) : ℝ :=
  bias + inputs.fitts * w.fitts + inputs.temporal * w.temporal +
    inputs.decision * w.decision + inputs.jitter * w.jitter +
    inputs.dwell * w.dwell + inputs.speed * w.speed +
    inputs.accel * w.accel + inputs.curvature * w.curvature +
    orZero inputs.entropy * w.entropy + inputs.pauses * w.pauses

/-- `AdaptivePerceptron.sigmoid`: `1 / (1 + exp(-max(-100, min(100, z))))`. -/
noncomputable def AdaptivePerceptron.sigmoid (z : ℝ) : ℝ :=
  1 / (1 + Real.exp (-(max (-100) (min 100 z))))

/-- `AdaptivePerceptron.predict`: returns the probability and the perceptron
with its `lastZ` / `lastP` diagnostics updated (the only fields `predict`
writes). -/
noncomputable def AdaptivePerceptron.predict (nn : AdaptivePerceptron)
    (inputs : FeatureVec) : ℝ × AdaptivePerceptron :=
  let z := AdaptivePerceptron.zValue nn.weights nn.bias inputs
  let p := AdaptivePerceptron.sigmoid z
  (p, ⟨nn.weights, nn.bias, some z, some p⟩)

/-- Result of `Vhum.analyzeJitter`.  The short-stream default carries
`spectralPower: 0` but the main return omits that key, hence `Option ℝ`. -/
structure JitterResult where
  jerk : ℝ
  isWhiteNoise : Bool
  tremor : ℝ
  spectralPower : Option ℝ
  cv : ℝ
  syncRatio : ℝ

/-- The inter-sample time deltas of `Vhum.analyzeJitter` (and of
`analyzeSpeed` / `analyzeAcceleration`, which recompute the same values),
each floored to 8 ms: `Math.max(8, pts[i].t - pts[i-1].t)`. -/
noncomputable def Vhum.dts8 (pts : List Sample) : List ℝ :=
  (consPairs pts).map fun p => max 8 (p.2.t - p.1.t)

/-- `Vhum.analyzeJitter` (reads `this.inputType`, passed explicitly:
`finalize` assigns it before calling the extractors). -/
noncomputable def Vhum.analyzeJitter (inputType : InputType)
    (pts : List Sample) : JitterResult :=
  if pts.length < 5 then ⟨0, false, 0, some 0, 0.2, 0⟩
  else
    let dts := Vhum.dts8 pts
    let meanDt := meanL dts
    let varianceDt := (dts.map fun b => (b - meanDt) ^ 2).sum / (dts.length : ℝ)
    let stdDevDt := Real.sqrt varianceDt
    let velocities := List.zipWith
      (fun (p : Sample × Sample) (dt : ℝ) =>
        Real.sqrt ((p.2.x - p.1.x) ^ 2 + (p.2.y - p.1.y) ^ 2)
          / max 0.008 (dt / 1000))
      (consPairs pts) dts
    let accelerations := List.zipWith
      (fun (v : ℝ × ℝ) (dt : ℝ) => |v.2 - v.1| / max 0.008 (dt / 1000))
      (consPairs velocities) dts.tail
    let meanVel := max 0.1 (velocities.sum / max 1 (velocities.length : ℝ))
    let varVel := jsOr ((velocities.map fun b => (b - meanVel) ^ 2).sum
      / max 1 (velocities.length : ℝ)) 0
    let stdDevVel := Real.sqrt (max 0 varVel)
    let cv := max 0 (stdDevVel / max 0.001 meanVel)
    let tremorSum := (((consPairs accelerations).drop 1).map
      fun p => |p.2 - p.1|).sum
    let tremor := tremorSum / max 1 ((accelerations.length : ℝ) - 2)
    let perfectMultiples := (dts.filter fun dt =>
      decide (|dt - 16.67| < 1) || decide (|dt - 33.33| < 1) ||
        decide (|dt - 50| < 1)).length
    let syncRatio :=
      if dts.length > 0 then (perfectMultiples : ℝ) / (dts.length : ℝ) else 0
    let jitterThreshold : ℝ := if inputType = .touch then 0.12 else 0.08
    let isSuspiciouslySmooth := decide (cv < jitterThreshold) ||
      (decide (varVel < 0.01) && decide (stdDevDt < 1)) ||
      decide (syncRatio > 0.75)
    ⟨min 1 (max 0 (tremor / 50)), isSuspiciouslySmooth, min 1 cv, none, cv,
     syncRatio⟩

/-- Result of `Vhum.analyzeSpeed`.  The short-stream default omits `min`. -/
structure SpeedResult where
  avg : ℝ
  max : ℝ
  min : Option ℝ
  score : ℝ
  distribution : String
  mode : ℝ
  skewness : ℝ

/-- `Vhum.analyzeSpeed`. -/
noncomputable def Vhum.analyzeSpeed (pts : List Sample) : SpeedResult :=
  if pts.length < 3 then ⟨0, 0, none, 0, "uniform", 0, 0⟩
  else
    let speeds := List.zipWith
      (fun (p : Sample × Sample) (dtMs : ℝ) =>
        Real.sqrt ((p.2.x - p.1.x) ^ 2 + (p.2.y - p.1.y) ^ 2) / (dtMs / 1000))
      (consPairs pts) (Vhum.dts8 pts)
    let avg := speeds.sum / (speeds.length : ℝ)
    let mx := listMax speeds
    let mn := listMin speeds
    let variance := (speeds.map fun b => (b - avg) ^ 2).sum / (speeds.length : ℝ)
    let stdDev := Real.sqrt variance
    let skewness := if stdDev > 0 then
      (speeds.map fun b => ((b - avg) / stdDev) ^ 3).sum / (speeds.length : ℝ)
      else 0
    let humanLikeDistribution := decide (skewness > 0.3) && decide (avg > 50) &&
      decide (stdDev / avg > 0.2) && decide (stdDev / avg < 2.0)
    let accelPattern := decide (mx / max avg 1 > 1.5) &&
      decide (mx / max avg 1 < 4)
    let score := if humanLikeDistribution && accelPattern then
      min 1 (0.7 + 0.3 * max 0 (min 1 ((skewness - 0.3) / 1.0)))
      else max 0 (min 1 (avg / 600))
    ⟨avg, mx, some mn, score,
     if humanLikeDistribution then "lognormal" else "uniform", avg, skewness⟩

/-- Result of `Vhum.analyzeAcceleration`. -/
structure AccelResult where
  avg : ℝ
  var : ℝ
  score : ℝ
  maxAccel : ℝ
  naturalAccel : Bool

/-- `Vhum.analyzeAcceleration` (reads `this.inputType`, passed explicitly). -/
noncomputable def Vhum.analyzeAcceleration (inputType : InputType)
    (pts : List Sample) : AccelResult :=
  if pts.length < 4 then ⟨0, 0, 0, 0, false⟩
  else
    let dts := (Vhum.dts8 pts).map fun dtMs => dtMs / 1000
    let speeds := List.zipWith
      (fun (p : Sample × Sample) (dt : ℝ) =>
        Real.sqrt ((p.2.x - p.1.x) ^ 2 + (p.2.y - p.1.y) ^ 2) / dt)
      (consPairs pts) dts
    let acc := List.zipWith
      (fun (v : ℝ × ℝ) (dt : ℝ) => (v.2 - v.1) / jsOr dt 0.016)
      (consPairs speeds) dts.tail
    let mean := (acc.map fun b => |b|).sum / max 1 (acc.length : ℝ)
    let variance := if acc.length ≠ 0 then
      (acc.map fun b => (b - mean) ^ 2).sum / (acc.length : ℝ) else 0
    let stdDev := Real.sqrt variance
    let maxAccel := if acc.length ≠ 0 then listMax (acc.map fun a => |a|) else 0
    let maxAccelThreshold : ℝ := if inputType = .touch then 6000 else 5000
    let naturalAccel := decide (maxAccel < maxAccelThreshold) &&
      decide (maxAccel > 50)
    let smoothAccel := decide (stdDev / (mean + 0.1) < 3.0)
    let score := if naturalAccel && smoothAccel then
      min 1 (0.8 + 0.2 * max 0 (min 1 ((stdDev / (mean + 0.1) - 0.5) / 2.0)))
      else max 0 (min 1 (mean / 2000))
    ⟨mean, variance, score, maxAccel, naturalAccel && smoothAccel⟩

/-- Result of `Vhum.analyzeCurvature`.  The short-stream default omits
`naturalCurvature`. -/
structure CurvatureResult where
  score : ℝ
  curvature : ℝ
  straightness : ℝ
  angleVariance : ℝ
  naturalCurvature : Option Bool

/-- `Vhum.analyzeCurvature`: turning angles of consecutive segment pairs
(degenerate segments skipped), path straightness, and their combination. -/
noncomputable def Vhum.analyzeCurvature (pts : List Sample) : CurvatureResult :=
  if pts.length < 4 then ⟨0, 0, 0, 0, none⟩
  else
    let angles := (List.zip (List.zip pts pts.tail) pts.tail.tail).filterMap
      fun t =>
        let a := t.1.1
        let b := t.1.2
        let c := t.2
        let v1 : ℝ × ℝ := (b.x - a.x, b.y - a.y)
        let v2 : ℝ × ℝ := (c.x - b.x, c.y - b.y)
        let dotp := v1.1 * v2.1 + v1.2 * v2.2
        let mag1 := Math.hypot v1.1 v1.2
        let mag2 := Math.hypot v2.1 v2.2
        if mag1 * mag2 = 0 then none
        else some (Real.arccos (max (-1) (min 1 (dotp / (mag1 * mag2)))))
    let count := angles.length
    let avgAngle := if count ≠ 0 then angles.sum / (count : ℝ) else 0
    let angleVariance := if count ≠ 0 then
      (angles.map fun b => (b - avgAngle) ^ 2).sum / (count : ℝ) else 0
    let angleStdDev := Real.sqrt angleVariance
    let naturalCurvature := decide (avgAngle > 0.2) && decide (avgAngle < 1.2)
    let smoothCurvature := decide (angleStdDev < avgAngle + 0.5)
    let pathLength := ((consPairs pts).map
      fun p => Math.hypot (p.2.x - p.1.x) (p.2.y - p.1.y)).sum
    let euclidean := Math.hypot ((pts.getLastD ⟨0, 0, 0⟩).x - (pts.headD ⟨0, 0, 0⟩).x)
      ((pts.getLastD ⟨0, 0, 0⟩).y - (pts.headD ⟨0, 0, 0⟩).y)
    let straightness := if euclidean > 0 then euclidean / pathLength else 0
    let score := if naturalCurvature && smoothCurvature &&
        decide (straightness > 0.7) then
      min 1 (0.7 + 0.3 * min 1 straightness)
      else max 0 (min 1 (straightness * 0.5))
    ⟨score, avgAngle, straightness, angleVariance,
     some (naturalCurvature && smoothCurvature)⟩

/-- Result of `Vhum.analyzeEntropy`.  The `pts.length < 4` default
(line 551) omits both `normalizedEntropy` and `dominance`; the
empty-directions default (line 560) carries both as `0`. -/
structure EntropyResult where
  score : ℝ
  entropy : ℝ
  directionBias : ℝ
  predictability : ℝ
  normalizedEntropy : Option ℝ
  dominance : Option ℝ

/-- `Vhum.analyzeEntropy`: Shannon entropy of the movement direction
quantized to 8 compass bins (`Math.round(atan2/(π/4)) % 8`, JS truncated
remainder), normalized by the entropy of the observed bin count. -/
noncomputable def Vhum.analyzeEntropy (pts : List Sample) : EntropyResult :=
  if pts.length < 4 then ⟨0, 0, 0, 0, none, none⟩
  else
    let directions : List ℤ := (consPairs pts).filterMap fun p =>
      let dx := p.2.x - p.1.x
      let dy := p.2.y - p.1.y
      if Math.hypot dx dy < 0.5 then none
      else some ((round (Math.atan2 dy dx / (Real.pi / 4))).tmod 8)
    if directions.length = 0 then ⟨0, 0, 0, 0, some 0, some 0⟩
    else
      let total := directions.length
      let keys := directions.dedup
      let counts := keys.map fun d => directions.count d
      let entropy := -((counts.map fun c =>
        let p := (c : ℝ) / (total : ℝ)
        if p > 0 then p * Real.logb 2 p else 0).sum)
      let maxEntropy :=
        Real.logb 2 (((if keys.length = 0 then 1 else keys.length) : ℕ) : ℝ)
      let normalizedEntropy := if maxEntropy > 0 then entropy / maxEntropy else 0
      let axisAlignedDirs := (directions.filter fun d =>
        decide (d.tmod 2 = 0)).length
      let directionBias := (axisAlignedDirs : ℝ) / (total : ℝ)
      let maxFreq := listMax (counts.map fun c => (c : ℝ))
      let dominance := maxFreq / (total : ℝ)
      let predictability := if dominance > 0.6 then 1 - normalizedEntropy
        else normalizedEntropy
      let humanLikeEntropy := decide (normalizedEntropy > 0.4) &&
        decide (normalizedEntropy < 0.95)
      let score := if humanLikeEntropy then normalizedEntropy
        else max 0 (min 1 (1 - |normalizedEntropy - 0.65| / 0.5))
      ⟨score, entropy, directionBias, predictability, some normalizedEntropy,
       some dominance⟩

/-- Result of `Vhum.countPauses`.  The `pts.length < 3` default carries only
`count`, `score`, `meanPause`, `pausePattern`; the no-pause return adds
`maxPause: 0`; the main return carries everything. -/
structure PauseResult where
  count : ℕ
  score : ℝ
  meanPause : ℝ
  pauseStdDev : Option ℝ
  pauseCV : Option ℝ
  dispersao : Option ℝ
  pausePattern : String
  maxPause : Option ℝ

/-- `Vhum.countPauses`: inter-sample gaps above the fixed 80-unit pause
threshold, their dispersion index `variance/(mean+0.1)`, and the score. -/
noncomputable def Vhum.countPauses (pts : List Sample) : PauseResult :=
  if pts.length < 3 then ⟨0, 0, 0, none, none, none, "none", none⟩
  else
    let pauses := ((consPairs pts).map fun p => p.2.t - p.1.t).filter
      fun dt => decide (dt > 80)
    let pauseCount := pauses.length
    if pauseCount = 0 then ⟨0, 0.1, 0, none, none, none, "continuous", some 0⟩
    else
      let meanPause := pauses.sum / (pauses.length : ℝ)
      let pauseVariance := (pauses.map fun b => (b - meanPause) ^ 2).sum
        / (pauses.length : ℝ)
      let pauseStdDev := Real.sqrt pauseVariance
      let pauseCV := if meanPause > 0 then pauseStdDev / meanPause else 0
      let dispersao := pauseVariance / (meanPause + 0.1)
      let poissonLike := decide (dispersao > 0.8) && decide (dispersao < 3.0)
      let naturalPauseTiming := decide (meanPause > 50) &&
        decide (meanPause < 500)
      let score := if poissonLike && naturalPauseTiming &&
          decide (pauseCV > 0.2) then
        min 1 (0.6 + 0.4 * max 0 (min 1 (pauseCV / 1.0)))
        else max 0 (min 1 (min ((pauseCount : ℝ) / 5) (1 - dispersao / 5)))
      ⟨pauseCount, max 0 (min 1 score), meanPause, some pauseStdDev,
       some pauseCV, some dispersao,
       if poissonLike then "natural_poisson"
         else if dispersao > 3 then "irregular" else "regular",
       some (listMax pauses)⟩

/-- Result of `Vhum.checkTemporalPrecision`.  The short-stream default
carries `variance: 0` and omits `meanDt` / `meanDtHz`; on the main path
`variance` holds `sqrt(variance)/meanDt`, which is non-finite when
`meanDt = 0` (hence `Option ℝ`). -/
structure TemporalResult where
  score : ℝ
  isSuspicious : Bool
  perfectSync : ℝ
  variance : Option ℝ
  meanDt : Option ℝ
  meanDtHz : Option ℝ

/-- The raw (unfloored) inter-sample time deltas used by
`Vhum.checkTemporalPrecision`: `dts.push(pts[i].t - pts[i-1].t)`. -/
def Vhum.tempDts (pts : List Sample) : List ℝ :=
  (consPairs pts).map fun p => p.2.t - p.1.t

/-- The mean of the raw deltas of `Vhum.checkTemporalPrecision`; it is the
unfloored denominator of that function's `cv`. -/
noncomputable def Vhum.tempMeanDt (pts : List Sample) : ℝ :=
  (Vhum.tempDts pts).sum / ((Vhum.tempDts pts).length : ℝ)

/-- `Vhum.checkTemporalPrecision`: fraction of raw inter-sample deltas
within ±0.5 of a common refresh period (or its double), combined with the
coefficient of variation of the deltas.  The `cv` denominator `meanDt` is
*not* floored: when it is `0`, JS produces `NaN` (zero numerator) or
`+Infinity` (positive numerator); the comparison `cv > 0.12` is then `false`
resp. `true`, modelled in the `humanLikeVariance` match. -/
noncomputable def Vhum.checkTemporalPrecision (pts : List Sample) :
    TemporalResult :=
  if pts.length < 5 then ⟨0, false, 0, some 0, none, none⟩
  else
    let dts := Vhum.tempDts pts
    let refreshRates : List ℝ := [2.78, 4.17, 5, 8.33, 10, 16.67, 20, 33.33, 50]
    let tolerance : ℝ := 0.5
    let syncCount := (dts.map fun dt => (refreshRates.filter fun rate =>
      decide (|dt - rate| < tolerance) ||
        decide (|dt - rate * 2| < tolerance)).length).sum
    let syncRatio :=
      if dts.length > 0 then (syncCount : ℝ) / (dts.length : ℝ) else 0
    let meanDt := Vhum.tempMeanDt pts
    let variance := (dts.map fun b => (b - meanDt) ^ 2).sum / (dts.length : ℝ)
    let cv := jdiv (Real.sqrt variance) meanDt
    let humanLikeVariance := match cv with
      | some v => decide (v > 0.12)
      | none => decide (Real.sqrt variance > 0)
    let suspiciousSync := decide (syncRatio > 0.65)
    let isSuspicious := suspiciousSync && !humanLikeVariance
    ⟨if suspiciousSync then 0.9
       else if humanLikeVariance then 0.2 else 0.5,
     isSuspicious, syncRatio, cv, some meanDt, jdiv 1000 meanDt⟩

/-- The options record of the `Vhum` constructor (the fields the analysis
pipeline reads). -/
structure VhumOptions where
  thresholdMouse : ℝ
  thresholdTouch : ℝ

/-- The constructor's option handling:
`options.thresholdMouse !== undefined ? options.thresholdMouse : 0.68` and
`options.thresholdTouch !== undefined ? options.thresholdTouch : 0.62`. -/
noncomputable def Vhum.mkOptions (thresholdMouse thresholdTouch : Option ℝ) :
    VhumOptions :=
  ⟨thresholdMouse.getD 0.68, thresholdTouch.getD 0.62⟩

/-- The bounding client rect of the protected checkbox
(`this.check.getBoundingClientRect()`). -/
structure Rect where
  left : ℝ
  top : ℝ
  width : ℝ
  height : ℝ

/-- A pointer/touch event's client coordinates. -/
structure PEvent where
  clientX : ℝ
  clientY : ℝ

/-- The mutable state of one `Vhum` object (the fields written and read by
the gesture lifecycle and the analysis pipeline). -/
structure VhumState where
  points : List Sample
  isTracking : Bool
  t_entry : ℝ
  t_down : ℝ
  entry_pos : ℝ × ℝ
  lastInputSource : Option InputSource
  inputType : InputType
  nnIsTouch : Bool
  nnMouse : AdaptivePerceptron
  nnTouch : AdaptivePerceptron

/-- The state set up by the `Vhum` constructor: empty Point Stream, not
tracking, zeroed timestamps, no source hint, `UNKNOWN` modality, and the two
fixed perceptrons (with `this.nn = this.nnMouse`). -/
noncomputable def Vhum.initState : VhumState :=
  ⟨[], false, 0, 0, (0, 0), none, .unknown, false,
   AdaptivePerceptron.init .mouse, AdaptivePerceptron.init .touch⟩

/-- `Vhum.handleEntry`: records the entry timestamp and position. -/
def Vhum.handleEntry (now : ℝ) (e : PEvent) (s : VhumState) : VhumState :=
  { s with t_entry := now, entry_pos := (e.clientX, e.clientY) }

/-- `Vhum.addPoint`: appends one sample to the Point Stream. -/
def Vhum.addPoint (now : ℝ) (e : PEvent) (s : VhumState) : VhumState :=
  { s with points := s.points ++ [⟨e.clientX, e.clientY, now⟩] }

/-- `Vhum.handleStart`: unconditionally records the press timestamp, sets
the tracking flag, resets the Point Stream and appends the initial sample —
there is no `isTracking` guard. -/
def Vhum.handleStart (now : ℝ) (e : PEvent) (s : VhumState) : VhumState :=
  Vhum.addPoint now e
    { s with t_down := now, isTracking := true, points := [] }

/-- `Vhum.handleMove`: appends a sample only while tracking. -/
def Vhum.handleMove (now : ℝ) (e : PEvent) (s : VhumState) : VhumState :=
  if s.isTracking = false then s else Vhum.addPoint now e s

/-- The center of the target rect computed in `Vhum.finalize`. -/
noncomputable def Vhum.targetCenter (rect : Rect) : ℝ × ℝ :=
  (rect.left + rect.width / 2, rect.top + rect.height / 2)

/-- `D`: Euclidean distance from the entry position to the target center. -/
noncomputable def Vhum.fittsD (entry_pos : ℝ × ℝ) (rect : Rect) : ℝ :=
  Math.hypot ((Vhum.targetCenter rect).1 - entry_pos.1)
    ((Vhum.targetCenter rect).2 - entry_pos.2)

/-- `W`: the smaller of the target's width and height. -/
noncomputable def Vhum.fittsW (rect : Rect) : ℝ := min rect.width rect.height

/-- The index of difficulty `ID = max(0, log2(2D/(W+1) + 1))`. -/
noncomputable def Vhum.fittsID (D W : ℝ) : ℝ :=
  max 0 (Real.logb 2 (2 * D / (W + 1) + 1))

/-- The fixed per-modality throughput constant (`2.5` touch, `4.0`
otherwise). -/
noncomputable def Vhum.fittsThroughput (inputType : InputType) : ℝ :=
  if inputType = .touch then 2.5 else 4.0

/-- The expected movement time `(ID / throughput) * 1000`. -/
noncomputable def Vhum.fittsTimeExpected (inputType : InputType) (D W : ℝ) : ℝ :=
  Vhum.fittsID D W / Vhum.fittsThroughput inputType * 1000

/-- The Fitts violation flag: actual movement time below `0.35×` (touch)
resp. `0.6×` (otherwise) of the expected time. -/
noncomputable def Vhum.fittsViolationB (inputType : InputType)
    (movementTime timeExpectedFitts : ℝ) : Bool :=
  if inputType = .touch then decide (movementTime < timeExpectedFitts * 0.35)
  else decide (movementTime < timeExpectedFitts * 0.6)

/-- The feature vector `inputs` assembled by `Vhum.finalize` from the
resolved modality, the timing quantities and the extractor outputs. -/
noncomputable def Vhum.featureInputs (it : InputType) (rect : Rect)
    (now t_down t_entry : ℝ) (entry_pos : ℝ × ℝ) (pts : List Sample) :
    FeatureVec :=
  let dwellTime := now - t_down
  let decisionTime := max (t_down - t_entry) 100
  let movementTime := now - t_entry
  let D := Vhum.fittsD entry_pos rect
  let W := Vhum.fittsW rect
  let timeExpectedFitts := Vhum.fittsTimeExpected it D W
  let fittsViolation := Vhum.fittsViolationB it movementTime timeExpectedFitts
  let jitter := Vhum.analyzeJitter it pts
  let speedStats := Vhum.analyzeSpeed pts
  let accelStats := Vhum.analyzeAcceleration it pts
  let curvature := Vhum.analyzeCurvature pts
  let entropy := Vhum.analyzeEntropy pts
  let pauses := Vhum.countPauses pts
  let temporalAnalysis := Vhum.checkTemporalPrecision pts
  let temporalViolation := if it = .touch then
      temporalAnalysis.isSuspicious && decide (temporalAnalysis.perfectSync > 0.85)
    else temporalAnalysis.isSuspicious
  { fitts := if fittsViolation then 1 else 0
    temporal := if temporalViolation then 1 else 0
    decision := if decisionTime < (if it = .touch then 220 else 150) then 1 else 0
    jitter := if jitter.isWhiteNoise then 1 else 0
    dwell := if dwellTime < (if it = .touch then 100 else 40) ∨
        dwellTime > (if it = .touch then 1500 else 1000) then 1 else 0
    speed := 1 - speedStats.score
    accel := 1 - accelStats.score
    curvature := 1 - curvature.score
    entropy := jabs (jsub entropy.normalizedEntropy 0.6)
    pauses := 1 - pauses.score }

/-- The unrounded probability computed in `Vhum.finalize`: the selected
perceptron's prediction on the assembled feature vector. -/
noncomputable def Vhum.rawProbability (rect : Rect) (now : ℝ)
    (points : List Sample) (src : Option InputSource) (t_down t_entry : ℝ)
    (entry_pos : ℝ × ℝ) (nnMouse nnTouch : AdaptivePerceptron) : ℝ :=
  (AdaptivePerceptron.predict
    (if InputTypeDetector.detect points src = .touch then nnTouch else nnMouse)
    (Vhum.featureInputs (InputTypeDetector.detect points src) rect now t_down
      t_entry entry_pos points)).1

/-- The threshold selected in `Vhum.finalize`:
`inputType === TOUCH ? thresholdTouch : thresholdMouse` (so `UNKNOWN` uses
the mouse threshold). -/
noncomputable def Vhum.selThreshold (cfg : VhumOptions) (it : InputType) : ℝ :=
  if it = .touch then cfg.thresholdTouch else cfg.thresholdMouse

/-- The diagnostic sub-scores of the emitted Result.  `entropy` holds the
extractor's `normalizedEntropy`, which is `undefined` on short streams. -/
structure AnalysisDetails where
  dwell : ℝ
  reaction : ℝ
  fitts : ℝ
  temporal : ℝ
  jitter : ℝ
  speed : ℝ
  accel : ℝ
  curvature : ℝ
  entropy : Option ℝ
  pauses : ℝ

/-- The Result object emitted once per completed gesture.  `verdict` is the
JS numeric encoding: `0` = bot, `1` = human. -/
structure VhumResult where
  probability : ℝ
  verdict : ℕ
  inputType : InputType
  thresholdUsed : ℝ
  analysisDetails : AnalysisDetails

/-- The computation of `Vhum.finalize` as a function of the state fields it
reads, returning the Result, the resolved modality and the selected
perceptron as updated by `predict`. -/
noncomputable def Vhum.finalizeCalc (cfg : VhumOptions) (rect : Rect)
    (now : ℝ) (points : List Sample) (src : Option InputSource)
    (t_down t_entry : ℝ) (entry_pos : ℝ × ℝ)
    (nnMouse nnTouch : AdaptivePerceptron) :
    VhumResult × InputType × AdaptivePerceptron :=
  let it := InputTypeDetector.detect points src
  let nn := if it = .touch then nnTouch else nnMouse
  let dwellTime := now - t_down
  let decisionTime := max (t_down - t_entry) 100
  let ID := Vhum.fittsID (Vhum.fittsD entry_pos rect) (Vhum.fittsW rect)
  let jitter := Vhum.analyzeJitter it points
  let speedStats := Vhum.analyzeSpeed points
  let accelStats := Vhum.analyzeAcceleration it points
  let curvature := Vhum.analyzeCurvature points
  let entropy := Vhum.analyzeEntropy points
  let pauses := Vhum.countPauses points
  let temporalAnalysis := Vhum.checkTemporalPrecision points
  let inputs := Vhum.featureInputs it rect now t_down t_entry entry_pos points
  let pr := AdaptivePerceptron.predict nn inputs
  let probability := pr.1
  let threshold := Vhum.selThreshold cfg it
  let verdict : ℕ := if probability > threshold then 0 else 1
  let result : VhumResult :=
    { probability := ((round (probability * 10000) : ℤ) : ℝ) / 10000
      verdict := verdict
      inputType := it
      thresholdUsed := threshold
      analysisDetails :=
        { dwell := dwellTime
          reaction := decisionTime
          fitts := ID
          temporal := temporalAnalysis.perfectSync
          jitter := jitter.cv
          speed := speedStats.score
          accel := accelStats.score
          curvature := curvature.score
          entropy := entropy.normalizedEntropy
          pauses := pauses.score } }
  (result, it, pr.2)

/-- `Vhum.finalize`: resolves the modality, selects the perceptron, runs the
analysis, emits the Result, and updates the state (`this.inputType`,
`this.nn`, `this.t_entry = 0`, and the selected perceptron's `lastZ`/`lastP`
written by `predict`).  The Point Stream is *not* cleared here. -/
noncomputable def Vhum.finalize (cfg : VhumOptions) (rect : Rect) (now : ℝ)
    (s : VhumState) : VhumState × VhumResult :=
  let c := Vhum.finalizeCalc cfg rect now s.points s.lastInputSource s.t_down
    s.t_entry s.entry_pos s.nnMouse s.nnTouch
  ({ s with inputType := c.2.1,
            nnIsTouch := decide (c.2.1 = .touch),
            t_entry := 0,
            nnMouse := if c.2.1 = .touch then s.nnMouse else c.2.2,
            nnTouch := if c.2.1 = .touch then c.2.2 else s.nnTouch },
   c.1)

/-- `Vhum.handleEnd`: a release/cancel while not tracking returns without
touching anything and emits nothing; otherwise the tracking flag is cleared
and `finalize` runs, emitting exactly one Result. -/
noncomputable def Vhum.handleEnd (cfg : VhumOptions) (rect : Rect) (now : ℝ)
    (s : VhumState) : VhumState × Option VhumResult :=
  if s.isTracking = false then (s, none)
  else
    let c := Vhum.finalize cfg rect now { s with isTracking := false }
    (c.1, some c.2)

/-- The gesture type tag of the legacy v2 `HumanVerifier`'s `dataObject`
(`"TOUCH"` / `"MOUSE"`; `none` models the empty `dataObject`). -/
inductive HVType
  | touch
  | mouse
  deriving DecidableEq

/-- A mouse event as read by `HumanVerifier.getMouseData`. -/
structure MouseEvt where
  clientX : ℝ
  clientY : ℝ
  target : String

/-- The record built by `HumanVerifier.getMouseData`: rounded coordinates,
a `Date.now()` timestamp and the target tag. -/
structure MouseData where
  x : ℤ
  y : ℤ
  timestamp : ℝ
  target : String

/-- `HumanVerifier.getMouseData`. -/
noncomputable def HumanVerifier.getMouseData (e : MouseEvt) (now : ℝ) :
    MouseData := ⟨round e.clientX, round e.clientY, now, e.target⟩

/-- The state of the legacy v2 `HumanVerifier` relevant to move sampling. -/
structure HVState where
  isTracking : Bool
  dtype : Option HVType
  moveCounter : ℕ
  moveEvents : List MouseData
  moveSampleRate : ℕ

/-- `new HumanVerifier(checkbox, display, moveSampleRate)`. -/
def HumanVerifier.initState (moveSampleRate : ℕ) : HVState :=
  ⟨false, none, 0, [], moveSampleRate⟩

/-- The constructor applied with its default parameter `moveSampleRate = 5`. -/
def HumanVerifier.initStateDefault : HVState := HumanVerifier.initState 5

/-- `HumanVerifier.handleMouseMove`: bails out unless tracking a MOUSE
gesture; otherwise every raw move increments `moveCounter`, and the move is
pushed to `moveEvents` only when the counter is divisible by
`moveSampleRate`. -/
noncomputable def HumanVerifier.handleMouseMove (e : MouseEvt) (now : ℝ)
    (s : HVState) : HVState :=
  if s.isTracking = false ∨ s.dtype ≠ some .mouse then s
  else
    let c := s.moveCounter + 1
    if c % s.moveSampleRate ≠ 0 then { s with moveCounter := c }
    else { s with moveCounter := c,
                  moveEvents := s.moveEvents ++ [HumanVerifier.getMouseData e now] }

/-- Default options (`new Vhum({})`). -/
noncomputable def cfgD : VhumOptions := Vhum.mkOptions none none

/-- A concrete target rect. -/
noncomputable def rectD : Rect := ⟨100, 100, 30, 20⟩

/-- A concrete state in the middle of a tracked gesture: one captured
sample, entry at `t = 1`, press at `t = 2`. -/
noncomputable def sTrack : VhumState :=
  ⟨[⟨1, 2, 3⟩], true, 1, 2, (0, 0), some .mouse, .unknown, false,
   AdaptivePerceptron.init .mouse, AdaptivePerceptron.init .touch⟩

/-- A state agreeing with `sTrack` on the Point Stream, source hint, press
and entry data and on the perceptron weights/biases, but differing in the
tracking flag, the stale `inputType`, the `nn` alias and the perceptrons'
`lastZ` / `lastP` diagnostics. -/
noncomputable def sTrackB : VhumState :=
  ⟨[⟨1, 2, 3⟩], false, 1, 2, (0, 0), some .mouse, .touch, true,
   ⟨mouseWeights, -3.2, some 5, some 0.5⟩,
   ⟨touchWeights, -2.6, some 7, some 0.9⟩⟩

/-- A Point Stream with a single sample. -/
noncomputable def shortStream : List Sample := [⟨3, 4, 7⟩]

/-- A five-sample Point Stream whose timestamps all coincide (consecutive
duplicate timestamps throughout). -/
noncomputable def fiveSame : List Sample :=
  [⟨0, 0, 100⟩, ⟨1, 0, 100⟩, ⟨2, 0, 100⟩, ⟨3, 0, 100⟩, ⟨4, 0, 100⟩]

/-- A concrete v2 mouse event. -/
def eC6 : MouseEvt := ⟨10, 20, "chk"⟩

/-- A concrete v2 verifier state tracking a MOUSE gesture with 4 raw moves
already counted and the default sampling rate. -/
def sC6 : HVState := ⟨true, some .mouse, 4, [], 5⟩

/-- `predict` returns the sigmoid of the accumulated sum, as a function of
the perceptron's weights and bias only. -/
theorem AdaptivePerceptron.predict_fst (nn : AdaptivePerceptron)
    (inputs : FeatureVec) :
    (AdaptivePerceptron.predict nn inputs).1 =
      AdaptivePerceptron.sigmoid
        (AdaptivePerceptron.zValue nn.weights nn.bias inputs) := rfl

theorem aux_ite_weights (c : Prop) [Decidable c] (a b : AdaptivePerceptron) :
    (if c then a else b).weights = if c then a.weights else b.weights := by
  split <;> rfl

theorem aux_ite_bias (c : Prop) [Decidable c] (a b : AdaptivePerceptron) :
    (if c then a else b).bias = if c then a.bias else b.bias := by
  split <;> rfl

/-- The Result computed by `finalizeCalc` depends on the two perceptrons
only through their weights and biases (not through `lastZ` / `lastP`). -/
theorem Vhum.finalizeCalc_fst_congr (cfg : VhumOptions) (rect : Rect)
    (now : ℝ) (points : List Sample) (src : Option InputSource)
    (t_down t_entry : ℝ) (entry_pos : ℝ × ℝ)
    (nnM₁ nnM₂ nnT₁ nnT₂ : AdaptivePerceptron)
    (hmw : nnM₁.weights = nnM₂.weights) (hmb : nnM₁.bias = nnM₂.bias)
    (htw : nnT₁.weights = nnT₂.weights) (htb : nnT₁.bias = nnT₂.bias) :
    (Vhum.finalizeCalc cfg rect now points src t_down t_entry entry_pos
      nnM₁ nnT₁).1 =
    (Vhum.finalizeCalc cfg rect now points src t_down t_entry entry_pos
      nnM₂ nnT₂).1 := by
  simp only [Vhum.finalizeCalc, AdaptivePerceptron.predict_fst,
    aux_ite_weights, aux_ite_bias, hmw, hmb, htw, htb]

/-- The state returned by `finalize` keeps the Point Stream untouched. -/
theorem Vhum.finalize_points_eq (cfg : VhumOptions) (rect : Rect) (now : ℝ)
    (s : VhumState) : (Vhum.finalize cfg rect now s).1.points = s.points := rfl

/-- Claim C1, counterexample: with the engine TRACKING (`sTrack`), a second
press is not ignored — `handleStart` replaces the Point Stream and the press
timestamp. -/
theorem claim_C1_counterexample :
    (Vhum.handleStart 50 ⟨7, 8⟩ sTrack).points ≠ sTrack.points ∧
    (Vhum.handleStart 50 ⟨7, 8⟩ sTrack).t_down ≠ sTrack.t_down := by
  constructor
  · norm_num [Vhum.handleStart, Vhum.addPoint, sTrack, Sample.mk.injEq]
  · norm_num [Vhum.handleStart, Vhum.addPoint, sTrack]

/-- Claim C1 (amended): a press while the engine is TRACKING is not
ignored; `handleStart` unconditionally restarts the gesture — it sets the
press timestamp to the event time, keeps the tracking flag set, and resets
the Point Stream to exactly the new initial sample, leaving the entry data
and the rest of the state unchanged. -/
theorem claim_C1_press_while_tracking_restarts (now : ℝ) (e : PEvent)
    (s : VhumState) (h : s.isTracking = true) :
    Vhum.handleStart now e s =
      { s with t_down := now, isTracking := true,
               points := [⟨e.clientX, e.clientY, now⟩] } := by
  simp [Vhum.handleStart, Vhum.addPoint]

/-- Witness for claim C1's amended theorem at the concrete tracking state
`sTrack`. -/
theorem claim_C1_witness :
    Vhum.handleStart 50 ⟨7, 8⟩ sTrack =
      { sTrack with t_down := 50, isTracking := true,
                    points := [⟨7, 8, 50⟩] } :=
  claim_C1_press_while_tracking_restarts 50 ⟨7, 8⟩ sTrack rfl

/-- Claim C2: on a Point Stream of length 1 the pipeline does not throw and
still yields a Result, but `analyzeEntropy`'s short-stream default omits
`normalizedEntropy`, so the `entropy` entry of the feature vector is
`Math.abs(undefined - 0.6) = NaN` (modelled `none`) — contradicting the
claim that no extractor feeds a NaN into the feature vector. -/
theorem claim_C2_entropy_feature_nan (it : InputType) (rect : Rect)
    (now t_down t_entry : ℝ) (pos : ℝ × ℝ) :
    (Vhum.analyzeEntropy shortStream).normalizedEntropy = none ∧
    (Vhum.featureInputs it rect now t_down t_entry pos shortStream).entropy =
      none :=
  ⟨rfl, rfl⟩

/-- Claim C5, counterexample: completing a gesture (`handleEnd` on the
tracking state `sTrack`) emits a Result but leaves the Point Stream
non-empty — it is not cleared at gesture completion. -/
theorem claim_C5_counterexample :
    (Vhum.handleEnd cfgD rectD 50 sTrack).1.points ≠ [] ∧
    ((Vhum.handleEnd cfgD rectD 50 sTrack).2).isSome = true := by
  constructor
  · have h1 : (Vhum.handleEnd cfgD rectD 50 sTrack).1.points =
        [(⟨1, 2, 3⟩ : Sample)] := rfl
    rw [h1]
    exact List.cons_ne_nil _ _
  · rfl

/-- Claim C5 (amended): the Point Stream is cleared at the start of each new
gesture — `handleStart` resets it to exactly the new initial sample — but it
is not cleared at gesture completion: `finalize` leaves `points` untouched,
and the stream persists until the next press (so no samples ever cross from
one gesture's analysis into the next, each press clearing before use). -/
theorem claim_C5_cleared_on_press_not_on_completion (cfg : VhumOptions)
    (rect : Rect) (now now' : ℝ) (e : PEvent) (s : VhumState) :
    (Vhum.handleStart now' e s).points = [⟨e.clientX, e.clientY, now'⟩] ∧
    (Vhum.finalize cfg rect now s).1.points = s.points := by
  constructor
  · simp [Vhum.handleStart, Vhum.addPoint]
  · exact Vhum.finalize_points_eq cfg rect now s

/-- Claim C6, counterexample: in the v3 engine two consecutive move events
while TRACKING are both retained in the Point Stream (length grows from 1
to 3), whereas under the claim only every 5th move would be retained. -/
theorem claim_C6_counterexample :
    (Vhum.handleMove 20 ⟨5, 6⟩ (Vhum.handleMove 10 ⟨3, 4⟩ sTrack)).points.length
      = 3 ∧
    sTrack.points.length = 1 := by
  constructor <;> rfl

/-- Claim C6 (amended): the sampling-rate divisor exists only in the legacy
v2 `HumanVerifier`: there, while tracking a MOUSE gesture, every raw move
event increments `moveCounter` and the move is retained in `moveEvents`
exactly when the counter is divisible by `moveSampleRate` (default 5); the
v3 engine's `handleMove` retains every move event while tracking. -/
theorem claim_C6_downsampling_only_in_v2 (e : MouseEvt) (now : ℝ)
    (s : HVState) (h1 : s.isTracking = true) (h2 : s.dtype = some .mouse) :
    (HumanVerifier.handleMouseMove e now s).moveCounter = s.moveCounter + 1 ∧
    (HumanVerifier.handleMouseMove e now s).moveEvents =
      (if (s.moveCounter + 1) % s.moveSampleRate = 0 then
        s.moveEvents ++ [HumanVerifier.getMouseData e now]
      else s.moveEvents) ∧
    HumanVerifier.initStateDefault.moveSampleRate = 5 ∧
    (∀ (e' : PEvent) (now' : ℝ) (s' : VhumState),
      (Vhum.handleMove now' e' { s' with isTracking := true }).points =
        s'.points ++ [⟨e'.clientX, e'.clientY, now'⟩]) := by
  have hg : ¬ (s.isTracking = false ∨ s.dtype ≠ some HVType.mouse) := by
    simp [h1, h2]
  refine ⟨?_, ?_, rfl, ?_⟩
  · rw [HumanVerifier.handleMouseMove, if_neg hg]
    by_cases hc : (s.moveCounter + 1) % s.moveSampleRate = 0 <;> simp [hc]
  · rw [HumanVerifier.handleMouseMove, if_neg hg]
    by_cases hc : (s.moveCounter + 1) % s.moveSampleRate = 0 <;> simp [hc]
  · intro e' now' s'
    simp [Vhum.handleMove, Vhum.addPoint]

/-- Witness for claim C6's amended theorem at the concrete v2 state `sC6`
(4 raw moves counted, rate 5): the 5th raw move increments the counter and
is retained. -/
theorem claim_C6_witness :
    (HumanVerifier.handleMouseMove eC6 9 sC6).moveCounter =
      sC6.moveCounter + 1 ∧
    (HumanVerifier.handleMouseMove eC6 9 sC6).moveEvents =
      sC6.moveEvents ++ [HumanVerifier.getMouseData eC6 9] :=
  ⟨(claim_C6_downsampling_only_in_v2 eC6 9 sC6 rfl rfl).1,
   ((claim_C6_downsampling_only_in_v2 eC6 9 sC6 rfl rfl).2.1).trans
     (if_pos (by decide))⟩

/-- Claim C10: a release/cancel (`handleEnd`) arriving while the engine is
not TRACKING is a complete no-op: the state is returned unchanged and no
Result is emitted. -/
theorem claim_C10_end_while_idle_noop (cfg : VhumOptions) (rect : Rect)
    (now : ℝ) (s : VhumState) (h : s.isTracking = false) :
    Vhum.handleEnd cfg rect now s = (s, none) := by
  simp [Vhum.handleEnd, h]

/-- Witness for claim C10 at the freshly constructed state. -/
theorem claim_C10_witness :
    Vhum.handleEnd cfgD rectD 5 Vhum.initState = (Vhum.initState, none) :=
  claim_C10_end_while_idle_noop cfgD rectD 5 Vhum.initState rfl

/-- Claim C3: the finalize/analysis logic is a pure function of its inputs —
two states agreeing on the Point Stream, source hint, press/entry data and
the perceptron weights/biases yield the identical Result (probability,
verdict and analysisDetails included) for the same release time and target
geometry, regardless of the tracking flag, the stale `inputType`, the `nn`
alias and the perceptrons' `lastZ`/`lastP` left over from a previous run. -/
theorem claim_C3_finalize_pure (cfg : VhumOptions) (rect : Rect) (now : ℝ)
    (s₁ s₂ : VhumState)
    (hp : s₁.points = s₂.points)
    (hs : s₁.lastInputSource = s₂.lastInputSource)
    (hd : s₁.t_down = s₂.t_down)
    (he : s₁.t_entry = s₂.t_entry)
    (hpos : s₁.entry_pos = s₂.entry_pos)
    (hmw : s₁.nnMouse.weights = s₂.nnMouse.weights)
    (hmb : s₁.nnMouse.bias = s₂.nnMouse.bias)
    (htw : s₁.nnTouch.weights = s₂.nnTouch.weights)
    (htb : s₁.nnTouch.bias = s₂.nnTouch.bias) :
    (Vhum.finalize cfg rect now s₁).2 = (Vhum.finalize cfg rect now s₂).2 := by
  have h1 : (Vhum.finalize cfg rect now s₁).2 =
      (Vhum.finalizeCalc cfg rect now s₁.points s₁.lastInputSource s₁.t_down
        s₁.t_entry s₁.entry_pos s₁.nnMouse s₁.nnTouch).1 := rfl
  have h2 : (Vhum.finalize cfg rect now s₂).2 =
      (Vhum.finalizeCalc cfg rect now s₂.points s₂.lastInputSource s₂.t_down
        s₂.t_entry s₂.entry_pos s₂.nnMouse s₂.nnTouch).1 := rfl
  rw [h1, h2, hp, hs, hd, he, hpos]
  exact Vhum.finalizeCalc_fst_congr cfg rect now s₂.points s₂.lastInputSource
    s₂.t_down s₂.t_entry s₂.entry_pos s₁.nnMouse s₂.nnMouse s₁.nnTouch
    s₂.nnTouch hmw hmb htw htb

/-- Witness for claim C3: `sTrack` and `sTrackB` share the gesture context
but differ in tracking flag, stale modality, `nn` alias and `lastZ`/`lastP`,
yet finalize at the same time and geometry produces the same Result. -/
theorem claim_C3_witness :
    (Vhum.finalize cfgD rectD 50 sTrack).2 =
      (Vhum.finalize cfgD rectD 50 sTrackB).2 :=
  claim_C3_finalize_pure cfgD rectD 50 sTrack sTrackB rfl rfl rfl rfl rfl rfl
    rfl rfl rfl

/-- Claim C4, counterexample: on the five-sample stream whose timestamps all
coincide, `checkTemporalPrecision`'s elapsed-time denominator (the mean
inter-sample delta) is exactly `0` — it is not floored — and the resulting
`cv` (returned as `variance`) is the non-finite result of a division by
zero (JS `0/0 = NaN`), contradicting the claim that every elapsed-time
denominator is floored to a positive minimum. -/
theorem claim_C4_counterexample :
    Vhum.tempMeanDt fiveSame = 0 ∧
    (Vhum.checkTemporalPrecision fiveSame).variance = none := by
  have hdts : Vhum.tempDts fiveSame = [0, 0, 0, 0] := by
    simp [Vhum.tempDts, consPairs, fiveSame]
  have hmean : Vhum.tempMeanDt fiveSame = 0 := by
    rw [Vhum.tempMeanDt, hdts]
    norm_num
  refine ⟨hmean, ?_⟩
  rw [Vhum.checkTemporalPrecision, if_neg (by norm_num [fiveSame])]
  simp [hmean, jdiv]

/-- Claim C4 (amended): the elapsed-time denominators of the feature
extractors are floored to a positive minimum (8 ms in `analyzeJitter` /
`analyzeSpeed` / `analyzeAcceleration`, 0.1 in the modality classifier's
jitter pattern), so duplicate timestamps cannot make them zero — except in
`checkTemporalPrecision`, whose `cv` divides by the unfloored mean
inter-sample delta: when that mean is `0` (all timestamps equal) the stored
`variance` field is the non-finite result of a zero division.  That value
never reaches the emitted Result, which only uses `perfectSync` and
`isSuspicious` from this extractor. -/
theorem claim_C4_floors_except_temporal (pts : List Sample) :
    (∀ d ∈ Vhum.dts8 pts, (8 : ℝ) ≤ d) ∧
    (∀ d ∈ InputTypeDetector.patternDts pts, (0.1 : ℝ) ≤ d) ∧
    (5 ≤ pts.length → Vhum.tempMeanDt pts = 0 →
      (Vhum.checkTemporalPrecision pts).variance = none) := by
  refine ⟨?_, ?_, ?_⟩
  · intro d hd
    simp only [Vhum.dts8, List.mem_map] at hd
    obtain ⟨p, _, rfl⟩ := hd
    exact le_max_left _ _
  · intro d hd
    simp only [InputTypeDetector.patternDts, List.mem_map] at hd
    obtain ⟨p, _, rfl⟩ := hd
    exact le_max_left _ _
  · intro h5 hm
    rw [Vhum.checkTemporalPrecision, if_neg (by omega)]
    simp [hm, jdiv]

/-- Witness for claim C4's amended theorem at the concrete all-equal
timestamp stream `fiveSame`. -/
theorem claim_C4_witness :
    (Vhum.checkTemporalPrecision fiveSame).variance = none :=
  (claim_C4_floors_except_temporal fiveSame).2.2 (by decide)
    (by simp [Vhum.tempMeanDt, Vhum.tempDts, consPairs, fiveSame])

/-- Claim C7: the Result's verdict is BOT (encoded `0`) iff the unrounded
probability strictly exceeds the threshold of the resolved modality
(`thresholdTouch` for TOUCH, `thresholdMouse` otherwise — so `UNKNOWN`
falls back to the mouse/pointer threshold), otherwise HUMAN (`1`); the
thresholds default to `0.68` mouse / `0.62` touch, and a Result is produced
for every resolved modality. -/
theorem claim_C7_verdict_vs_threshold (cfg : VhumOptions) (rect : Rect)
    (now : ℝ) (s : VhumState) :
    ((Vhum.finalize cfg rect now s).2.verdict = 0 ↔
      Vhum.rawProbability rect now s.points s.lastInputSource s.t_down
          s.t_entry s.entry_pos s.nnMouse s.nnTouch >
        Vhum.selThreshold cfg
          (InputTypeDetector.detect s.points s.lastInputSource)) ∧
    ((Vhum.finalize cfg rect now s).2.verdict = 0 ∨
      (Vhum.finalize cfg rect now s).2.verdict = 1) ∧
    (Vhum.finalize cfg rect now s).2.thresholdUsed =
      Vhum.selThreshold cfg
        (InputTypeDetector.detect s.points s.lastInputSource) ∧
    (Vhum.finalize cfg rect now s).2.inputType =
      InputTypeDetector.detect s.points s.lastInputSource ∧
    (∀ c : VhumOptions, Vhum.selThreshold c .unknown = c.thresholdMouse) ∧
    (Vhum.mkOptions none none).thresholdMouse = 0.68 ∧
    (Vhum.mkOptions none none).thresholdTouch = 0.62 := by
  have hv : (Vhum.finalize cfg rect now s).2.verdict =
      if Vhum.rawProbability rect now s.points s.lastInputSource s.t_down
          s.t_entry s.entry_pos s.nnMouse s.nnTouch >
        Vhum.selThreshold cfg
          (InputTypeDetector.detect s.points s.lastInputSource)
      then 0 else 1 := rfl
  refine ⟨?_, ?_, rfl, rfl, fun c => rfl, rfl, rfl⟩
  · rw [hv]
    by_cases h : Vhum.rawProbability rect now s.points s.lastInputSource
        s.t_down s.t_entry s.entry_pos s.nnMouse s.nnTouch >
        Vhum.selThreshold cfg
          (InputTypeDetector.detect s.points s.lastInputSource) <;>
      simp [h]
  · rw [hv]
    by_cases h : Vhum.rawProbability rect now s.points s.lastInputSource
        s.t_down s.t_entry s.entry_pos s.nnMouse s.nnTouch >
        Vhum.selThreshold cfg
          (InputTypeDetector.detect s.points s.lastInputSource) <;>
      simp [h]

/-- Claim C8: the Fitts check computes `D` as the Euclidean distance from
the entry position to the target center, `W` as the smaller target side,
`ID = max(0, log2(2D/(W+1) + 1))`, expected time `(ID/throughput)*1000`
with a fixed per-modality throughput larger for pointer (4.0) than touch
(2.5), and flags a violation exactly when the actual movement time is below
the modality fraction (0.35 touch, 0.6 otherwise — tighter for touch) of
the expected time. -/
theorem claim_C8_fitts_check (it : InputType) (movementTime D W : ℝ)
    (entry : ℝ × ℝ) (rect : Rect) :
    Vhum.fittsD entry rect =
      Real.sqrt (((Vhum.targetCenter rect).1 - entry.1) ^ 2 +
        ((Vhum.targetCenter rect).2 - entry.2) ^ 2) ∧
    Vhum.fittsW rect = min rect.width rect.height ∧
    Vhum.fittsID D W = max 0 (Real.logb 2 (2 * D / (W + 1) + 1)) ∧
    Vhum.fittsTimeExpected it D W =
      Vhum.fittsID D W / Vhum.fittsThroughput it * 1000 ∧
    Vhum.fittsThroughput .touch = 2.5 ∧
    Vhum.fittsThroughput .mouse = 4.0 ∧
    Vhum.fittsThroughput .unknown = 4.0 ∧
    Vhum.fittsThroughput .touch < Vhum.fittsThroughput .mouse ∧
    (Vhum.fittsViolationB it movementTime (Vhum.fittsTimeExpected it D W) =
        true ↔
      movementTime < (if it = .touch then (0.35 : ℝ) else 0.6) *
        Vhum.fittsTimeExpected it D W) ∧
    (0.35 : ℝ) < 0.6 := by
  refine ⟨rfl, rfl, rfl, rfl, rfl, rfl, rfl, ?_, ?_, by norm_num⟩
  · have ht : Vhum.fittsThroughput .touch = 2.5 := rfl
    have hm : Vhum.fittsThroughput .mouse = 4.0 := rfl
    rw [ht, hm]
    norm_num
  cases it <;> simp [Vhum.fittsViolationB, mul_comm]

/-- Claim C9: for every perceptron state and feature vector the scorer
output equals `sigmoid(clamp(bias + Σ weight*value, -100, 100))` (the one
possibly-NaN entry, entropy, entering as `0` via the JS `|| 0` coercion);
prediction never mutates the weights or bias; and the engine's two
perceptrons are exactly the fixed mouse/touch presets. -/
theorem claim_C9_scorer_formula (nn : AdaptivePerceptron) (fv : FeatureVec) :
    (AdaptivePerceptron.predict nn fv).1 =
      1 / (1 + Real.exp (-(max (-100) (min 100 (nn.bias +
        (nn.weights.fitts * fv.fitts + nn.weights.temporal * fv.temporal +
         nn.weights.decision * fv.decision + nn.weights.jitter * fv.jitter +
         nn.weights.dwell * fv.dwell + nn.weights.speed * fv.speed +
         nn.weights.accel * fv.accel + nn.weights.curvature * fv.curvature +
         nn.weights.entropy * orZero fv.entropy +
         nn.weights.pauses * fv.pauses)))))) ∧
    (AdaptivePerceptron.predict nn fv).2.weights = nn.weights ∧
    (AdaptivePerceptron.predict nn fv).2.bias = nn.bias ∧
    (AdaptivePerceptron.init .mouse).weights = mouseWeights ∧
    (AdaptivePerceptron.init .mouse).bias = -3.2 ∧
    (AdaptivePerceptron.init .touch).weights = touchWeights ∧
    (AdaptivePerceptron.init .touch).bias = -2.6 ∧
    Vhum.initState.nnMouse = AdaptivePerceptron.init .mouse ∧
    Vhum.initState.nnTouch = AdaptivePerceptron.init .touch := by
  refine ⟨?_, rfl, rfl, rfl, rfl, rfl, rfl, rfl, rfl⟩
  have hz : AdaptivePerceptron.zValue nn.weights nn.bias fv = nn.bias +
      (nn.weights.fitts * fv.fitts + nn.weights.temporal * fv.temporal +
       nn.weights.decision * fv.decision + nn.weights.jitter * fv.jitter +
       nn.weights.dwell * fv.dwell + nn.weights.speed * fv.speed +
       nn.weights.accel * fv.accel + nn.weights.curvature * fv.curvature +
       nn.weights.entropy * orZero fv.entropy +
       nn.weights.pauses * fv.pauses) := by
    rw [AdaptivePerceptron.zValue]
    ring
  rw [AdaptivePerceptron.predict_fst, AdaptivePerceptron.sigmoid, hz]
